import Mathlib

/-!
Shallow embedding of the Binance futures scalping bot (`runbot.py`).

Prices, quantities and times are modelled as rationals (`ℚ`); exchange
order identifiers as naturals (`ℕ`); Python `None` as `Option.none`.
External effects (exchange calls, the listener thread, the clock) enter
the embedded functions as explicit arguments: a call that may raise is
an `Except`, and values produced by the exchange or by the concurrently
running event listener are oracle parameters.
-/

/-- Configuration dataclass `TradingConfig` of `runbot.py`. -/
structure TradingConfig where
  symbol : String
  quantity : ℚ
  take_profit : ℚ
  direction : String
  max_orders : ℕ
  wait_time : ℕ
deriving DecidableEq

/-- Property `TradingConfig.close_order_side`:
`'BUY' if self.direction == "SELL" else 'SELL'`. -/
def TradingConfig.close_order_side (cfg : TradingConfig) : String :=
  if cfg.direction = "SELL" then "BUY" else "SELL"

/-- Dataclass `OrderMonitor`: fill state of the single in-flight open order. -/
structure OrderMonitor where
  order_id : Option ℕ
  filled : Bool
  filled_price : Option ℚ
  filled_qty : ℚ
deriving DecidableEq

/-- `OrderMonitor.reset`: sets `order_id = None`, `filled = False`,
`filled_price = None`, `filled_qty = 0.0`. -/
def OrderMonitor.reset (_ : OrderMonitor) : OrderMonitor :=
  { order_id := none, filled := false, filled_price := none, filled_qty := 0 }

/-- One row passed to `TradingLogger.log_transaction`
(`transaction_id, tx_type, price, amount, status, counter_order_id`).
The CSV writer additionally rounds price and amount to 6 decimals and
prepends a timestamp and the symbol; those presentation details are not
modelled. -/
structure TransactionRecord where
  transaction_id : ℕ
  tx_type : String
  price : ℚ
  amount : ℚ
  status : String
  counter_order_id : Option ℕ
deriving DecidableEq

/-- An order as returned by the exchange in `client.get_orders(...)`:
only the fields `orderId` and `side` are read by
`BinanceClient.get_active_close_orders`. -/
structure RawOrder where
  orderId : ℕ
  side : String
deriving DecidableEq

/-- The body of one attempt of `BinanceClient.get_active_close_orders`,
written as a fuel-indexed loop so that it is structurally recursive.
`respond attempt` is the outcome of the `self.client.get_orders` call on
that attempt (the exchange is an oracle).  The second component of the
result is the trace of `time.sleep` durations performed between failed
attempts (`delay * (attempt + 1)`).  `fuel` counts the iterations the
Python `for attempt in range(retries)` loop still has; the loop is
entered with `attempt = 0` and `fuel = retries`.  A result of `none`
means the loop body never returned (Python falls off the loop and
returns `None`, which only happens when `retries = 0`). -/
def gaco_loop (close_order_side : String)
    (respond : ℕ → Except String (List RawOrder)) (retries : ℕ) (delay : ℚ) :
    ℕ → ℕ → Option (Except String (List ℕ)) × List ℚ
  | _, 0 => (none, [])
  | attempt, fuel + 1 =>
    match respond attempt with
    | .ok open_orders =>
        (some (.ok ((open_orders.filter
          (fun o => o.side = close_order_side)).map RawOrder.orderId)), [])
    | .error e =>
        if attempt < retries - 1 then
          let r := gaco_loop close_order_side respond retries delay (attempt + 1) fuel
          (r.1, delay * ((attempt : ℚ) + 1) :: r.2)
        else
          (some (.error e), [])

/-- `BinanceClient.get_active_close_orders(symbol, close_order_side,
retries, delay)` (the Python defaults are `retries = 3`, `delay = 1.0`):
retry loop around the order-list query, filtering open orders on the
close side and projecting their ids. -/
def get_active_close_orders (close_order_side : String)
    (respond : ℕ → Except String (List RawOrder)) (retries : ℕ) (delay : ℚ) :
    Option (Except String (List ℕ)) × List ℚ :=
  gaco_loop close_order_side respond retries delay 0 retries

/-- The state of `WebSocketManager` relevant to message handling: the
shared `OrderMonitor`, the `threading.Event` fill signal (a `Bool`),
the running PnL, and the transaction rows appended so far. -/
structure WsState where
  monitor : OrderMonitor
  fill_event : Bool
  cumulative_pnl : ℚ
  txLog : List TransactionRecord
deriving DecidableEq

/-- An `ORDER_TRADE_UPDATE` payload `msg['o']` with the fields the bot
reads: `s` symbol, `i` order id, `S` side, `X` status, `ap` average
fill price, `z` cumulative filled quantity, `q` original order
quantity. -/
structure WsOrder where
  s : String
  i : ℕ
  S : String
  X : String
  ap : ℚ
  z : ℚ
  q : ℚ
deriving DecidableEq

/-- `WebSocketManager._handle_order_update`: on `FILLED` set the fill
flag, price and quantity and set the fill event; on `PARTIALLY_FILLED`
update quantity and price only; otherwise do nothing. -/
def handle_order_update (st : WsState) (o : WsOrder) : WsState :=
  if o.X = "FILLED" then
    { st with
      monitor := { st.monitor with
        filled := true, filled_price := some o.ap, filled_qty := o.z },
      fill_event := true }
  else if o.X = "PARTIALLY_FILLED" then
    { st with
      monitor := { st.monitor with
        filled_qty := o.z, filled_price := some o.ap } }
  else st

/-- `WebSocketManager._handle_close_order_fill`: log a CLOSE/FILLED
transaction and add `take_profit * float(order['q'])` to the PnL. -/
def handle_close_order_fill (cfg : TradingConfig) (st : WsState) (o : WsOrder) :
    WsState :=
  { st with
    txLog := st.txLog ++
      [{ transaction_id := o.i, tx_type := "CLOSE", price := o.ap,
         amount := o.q, status := "FILLED", counter_order_id := none }],
    cumulative_pnl := st.cumulative_pnl + cfg.take_profit * o.q }

/-- `WebSocketManager._handle_message` after JSON decoding: `e` is the
event type discriminator `msg['e']` (a missing key is modelled as a
value different from `"ORDER_TRADE_UPDATE"`) and `o` the order payload.
Events of another type or another symbol are ignored; events on the
tracked order id go to `_handle_order_update`; close-side `FILLED`
events go to `_handle_close_order_fill`. -/
def handle_message (cfg : TradingConfig) (st : WsState) (e : String)
    (o : WsOrder) : WsState :=
  if e ≠ "ORDER_TRADE_UPDATE" then st
  else if o.s ≠ cfg.symbol then st
  else if st.monitor.order_id = some o.i then handle_order_update st o
  else if o.S = cfg.close_order_side ∧ o.X = "FILLED" then
    handle_close_order_fill cfg st o
  else st

/-- The mutable fields of `TradingBot` touched by the main loop:
the shared monitor, `close_order` (only its `"orderId"` entry is ever
read, so the dict is modelled as that optional id), `order_status`,
`active_close_orders` (order ids; the CANCELLED branch appends the
sentinel `0`), the skip-wait flag and the last open-order timestamp. -/
structure BotState where
  monitor : OrderMonitor
  close_order : Option ℕ
  order_status : Option String
  active_close_orders : List ℕ
  skip_waiting_time : Bool
  last_open_order_time : ℚ
deriving DecidableEq

/-- `TradingBot._calculate_wait_time`: `0` when
`len(self.active_close_orders) < self.config.max_orders / 3`
(true division), else `self.config.wait_time`. -/
def calculate_wait_time (cfg : TradingConfig) (active_len : ℕ) : ℕ :=
  if (active_len : ℚ) < (cfg.max_orders : ℚ) / 3 then 0 else cfg.wait_time

/-- The close-order request sent by `TradingBot._place_close_order` to
`place_close_order_with_fallback`: quantity, limit price and side. -/
structure CloseOrderReq where
  qty : ℚ
  price : ℚ
  side : String
deriving DecidableEq

/-- `TradingBot._place_close_order(qty, price)` builds the request at
`price + self.config.take_profit` on `self.config.close_order_side`.
(The state updates it performs — setting `self.close_order` and
appending the exchange-assigned id to `active_close_orders` — are
folded into `handle_order_result` below, which is its only caller.) -/
def place_close_order (cfg : TradingConfig) (qty price : ℚ) : CloseOrderReq :=
  { qty := qty, price := price + cfg.take_profit, side := cfg.close_order_side }

/-- The open-order placement response fields read by the bot:
`orderId`, `price`, `origQty`. -/
structure OpenOrderResp where
  orderId : ℕ
  price : ℚ
  origQty : ℚ
deriving DecidableEq

/-- The cancel-order response field read by the bot: `executedQty`
(read with `.get("executedQty", 0)`). -/
structure CancelResp where
  executedQty : ℚ
deriving DecidableEq

/-- Result of `TradingBot._handle_order_result`: the updated bot state,
the close-order request sent to the exchange (if any), and the OPEN-leg
row passed to `log_transaction`. -/
structure HandleResult where
  state : BotState
  placed_close : Option CloseOrderReq
  tx : TransactionRecord
deriving DecidableEq

/-- `TradingBot._handle_order_result(order)`.  `cancel` is the outcome
of the `cancel_order` exchange call (only consulted when the monitor is
not filled); `closeId` is the `orderId` the exchange assigns to a close
order placed by `_place_close_order`.  If the monitor is unfilled and
the cancel raises, the attempt is reclassified as filled at the original
order's price for the full configured quantity.  A filled attempt places
a close order for `float(order["origQty"])` at
`self.order_monitor.filled_price + take_profit`; a successful cancel
with positive `executedQty` places a close order for that quantity;
otherwise the attempt is CANCELLED, `close_order` is reset and the
sentinel `0` is appended to `active_close_orders`.  (When the code
reaches a close placement, `filled_price` has always been set — by the
listener or by the reclassification; the `Option.getD 0` below is only
a total-function default for states Python cannot reach, where it would
raise a `TypeError` on `None + float`.) -/
def handle_order_result (cfg : TradingConfig) (st : BotState)
    (order : OpenOrderResp) (cancel : Except Unit CancelResp) (closeId : ℕ) :
    HandleResult :=
  let phase1 : OrderMonitor × Option CancelResp :=
    if st.monitor.filled then (st.monitor, none)
    else
      match cancel with
      | .ok c => (st.monitor, some c)
      | .error _ =>
          ({ st.monitor with
             filled := true, filled_qty := cfg.quantity,
             filled_price := some order.price }, none)
  let mon1 := phase1.1
  let canceled_order := phase1.2
  if mon1.filled then
    let filled_amount := order.origQty
    let req := place_close_order cfg filled_amount (mon1.filled_price.getD 0)
    { state := { st with
        monitor := mon1, close_order := some closeId,
        active_close_orders := st.active_close_orders ++ [closeId],
        order_status := some "FILLED" },
      placed_close := some req,
      tx := { transaction_id := order.orderId, tx_type := "OPEN",
              price := order.price, amount := filled_amount,
              status := "FILLED", counter_order_id := some closeId } }
  else
    let filled_amount :=
      match canceled_order with
      | some c => c.executedQty
      | none => 0
    if 0 < filled_amount then
      let req := place_close_order cfg filled_amount (mon1.filled_price.getD 0)
      { state := { st with
          monitor := mon1, close_order := some closeId,
          active_close_orders := st.active_close_orders ++ [closeId],
          order_status := some "PARTIALLY_FILLED" },
        placed_close := some req,
        tx := { transaction_id := order.orderId, tx_type := "OPEN",
                price := order.price, amount := filled_amount,
                status := "PARTIALLY_FILLED", counter_order_id := some closeId } }
    else
      { state := { st with
          monitor := mon1, close_order := none,
          active_close_orders := st.active_close_orders ++ [0],
          order_status := some "CANCELLED" },
        placed_close := none,
        tx := { transaction_id := order.orderId, tx_type := "OPEN",
                price := order.price, amount := filled_amount,
                status := "CANCELLED", counter_order_id := none } }

/-- The environment of one `_place_and_monitor_open_order` attempt:
the outcome of the placement call, the monitor state left by the event
listener when `fill_event.wait(timeout=10)` returns (the listener runs
concurrently; its effect during the wait is an oracle), the cancel-call
outcome and the exchange-assigned id of any close order placed. -/
structure AttemptEnv where
  placeResult : Except Unit OpenOrderResp
  monitorAfterWait : OrderMonitor
  cancelResult : Except Unit CancelResp
  closeId : ℕ

/-- `TradingBot._place_and_monitor_open_order`: place the open order
(an exception leaves the state unchanged and returns), reset the
monitor and record its new `order_id`, stamp `last_open_order_time`,
wait on the fill event, then defer to `_handle_order_result`.  After
the bounded wait the monitor holds whatever the listener wrote
(`env.monitorAfterWait`) with the tracked id set by this thread. -/
def place_and_monitor_open_order (cfg : TradingConfig) (st : BotState)
    (now : ℚ) (env : AttemptEnv) : BotState :=
  match env.placeResult with
  | .error _ => st
  | .ok order =>
      let st1 := { st with
        monitor := { env.monitorAfterWait with order_id := some order.orderId },
        last_open_order_time := now }
      (handle_order_result cfg st1 order env.cancelResult env.closeId).state

/-- `TradingBot._update_skip_waiting_logic`: set the skip-wait flag if
the remembered close-order id is non-null and missing from
`self.active_close_orders`, or if the open leg was CANCELLED; clear it
otherwise. -/
def update_skip_waiting_logic (st : BotState) : BotState :=
  match st.close_order with
  | some cid =>
      if cid ∉ st.active_close_orders then
        { st with skip_waiting_time := true }
      else if st.order_status = some "CANCELLED" then
        { st with skip_waiting_time := true }
      else
        { st with skip_waiting_time := false }
  | none =>
      if st.order_status = some "CANCELLED" then
        { st with skip_waiting_time := true }
      else
        { st with skip_waiting_time := false }

/-- The admission-and-attempt phase of one iteration of
`TradingBot.run`'s main loop: if fewer active close orders than
`max_orders` and (the pacing window elapsed or the skip-wait flag is
set), run `_place_and_monitor_open_order`.  The returned `Bool` records
whether an attempt was admitted. -/
def iterationAttemptPhase (cfg : TradingConfig) (st : BotState) (now : ℚ)
    (env : AttemptEnv) : BotState × Bool :=
  let wt := calculate_wait_time cfg st.active_close_orders.length
  if st.active_close_orders.length < cfg.max_orders ∧
      ((wt : ℚ) ≤ now - st.last_open_order_time ∨ st.skip_waiting_time = true) then
    (place_and_monitor_open_order cfg st now env, true)
  else
    (st, false)

/-- One iteration of `TradingBot.run`'s main loop, in source order:
attempt phase, fresh `get_active_close_orders` query (its result is the
oracle `latest`), `_update_skip_waiting_logic`, and only then the
wholesale replacement `self.active_close_orders = latest_active_orders`.
The trailing sleep policy only consumes time and is not modelled. -/
def runIteration (cfg : TradingConfig) (st : BotState) (now : ℚ)
    (env : AttemptEnv) (latest : List ℕ) : BotState × Bool :=
  let p := iterationAttemptPhase cfg st now env
  let st2 := update_skip_waiting_logic p.1
  ({ st2 with active_close_orders := latest }, p.2)

/-- The condition under which `_update_skip_waiting_logic` sets the
flag, as a single boolean: the remembered close-order id exists and is
absent from the list the method reads, or the open leg was CANCELLED. -/
def skipCond (st : BotState) : Bool :=
  (match st.close_order with
   | some cid => !(st.active_close_orders.contains cid)
   | none => false) || (st.order_status == some "CANCELLED")

/-- Boolean form of the condition under which `_handle_message`
dispatches to `_handle_close_order_fill`: right event type, right
symbol, not the tracked open order, close side, terminal fill. -/
def closeFillCond (cfg : TradingConfig) (st : WsState) (e : String)
    (o : WsOrder) : Bool :=
  decide (e = "ORDER_TRADE_UPDATE") && decide (o.s = cfg.symbol) &&
  !(decide (st.monitor.order_id = some o.i)) &&
  decide (o.S = cfg.close_order_side) && decide (o.X = "FILLED")

/-- A concrete configuration (the source defaults) used in concrete
instances below. -/
def cfgW : TradingConfig :=
  { symbol := "ETHUSDC", quantity := 1/100, take_profit := 1,
    direction := "BUY", max_orders := 75, wait_time := 30 }

/-- An attempt environment whose placement call raises, so the bot
state is left unchanged by the attempt. -/
def attemptEnvErr : AttemptEnv :=
  { placeResult := .error (), monitorAfterWait := ⟨none, false, none, 0⟩,
    cancelResult := .error (), closeId := 0 }

/-- C10: `OrderMonitor.reset` is idempotent — a second `reset` yields
exactly the state of the first, namely the empty monitor state. -/
theorem reset_idempotent (m : OrderMonitor) :
    m.reset.reset = m.reset ∧
    m.reset = { order_id := none, filled := false, filled_price := none,
                filled_qty := 0 } :=
  ⟨rfl, rfl⟩

/-- C3, counterexample: with `max_orders = 75` and exactly 25 active
close orders, `_calculate_wait_time` returns the configured
`wait_time = 30`, not `0` — Python's `25 < 75/3` is `25 < 25.0`,
which is false. -/
theorem calculate_wait_time_boundary_cex :
    calculate_wait_time cfgW 25 ≠ 0 := by
  norm_num [calculate_wait_time, cfgW]

/-- C3, amended: `_calculate_wait_time` returns `0` exactly when the
active close-order count is strictly below one-third of `max_orders`
(`3 * n < max_orders`) and the configured `wait_time` otherwise; at the
exact one-third boundary (`max_orders = 75`, 25 active) the boundary is
exclusive and the wait time is the configured 30, not 0. -/
theorem calculate_wait_time_spec (cfg : TradingConfig) (n : ℕ) :
    (3 * n < cfg.max_orders → calculate_wait_time cfg n = 0) ∧
    (cfg.max_orders ≤ 3 * n → calculate_wait_time cfg n = cfg.wait_time) ∧
    calculate_wait_time cfgW 25 = cfgW.wait_time := by
  refine ⟨?_, ?_, by norm_num [calculate_wait_time, cfgW]⟩
  · intro h
    have h3 : (n : ℚ) < (cfg.max_orders : ℚ) / 3 := by
      rw [lt_div_iff₀ (by norm_num : (0:ℚ) < 3)]
      exact_mod_cast (show n * 3 < cfg.max_orders by omega)
    simp [calculate_wait_time, h3]
  · intro h
    have h3 : ¬ ((n : ℚ) < (cfg.max_orders : ℚ) / 3) := by
      rw [not_lt, div_le_iff₀ (by norm_num : (0:ℚ) < 3)]
      exact_mod_cast (show cfg.max_orders ≤ n * 3 by omega)
    simp [calculate_wait_time, h3]

/-- Witness for `calculate_wait_time_spec` at concrete inputs: 2 active
orders is below a third of 75 so the wait is 0, and 30 active orders is
at least a third of 75 so the wait is the configured 30. -/
theorem calculate_wait_time_spec_witness :
    calculate_wait_time cfgW 2 = 0 ∧ calculate_wait_time cfgW 30 = cfgW.wait_time :=
  ⟨(calculate_wait_time_spec cfgW 2).1 (by norm_num [cfgW]),
   (calculate_wait_time_spec cfgW 30).2.1 (by norm_num [cfgW])⟩

/-- C1: when the monitor is unfilled after the wait and the cancel call
raises, `_handle_order_result` reclassifies the attempt as filled: the
fill flag becomes true, the filled quantity is the configured order
quantity, the filled price is the original order's price, and the
recorded outcome — both `order_status` and the logged row — is FILLED,
never CANCELLED. -/
theorem cancel_raced_fill_reclassified (cfg : TradingConfig) (st : BotState)
    (order : OpenOrderResp) (closeId : ℕ) (h : st.monitor.filled = false) :
    (handle_order_result cfg st order (.error ()) closeId).state.monitor.filled = true ∧
    (handle_order_result cfg st order (.error ()) closeId).state.monitor.filled_qty
      = cfg.quantity ∧
    (handle_order_result cfg st order (.error ()) closeId).state.monitor.filled_price
      = some order.price ∧
    (handle_order_result cfg st order (.error ()) closeId).state.order_status
      = some "FILLED" ∧
    (handle_order_result cfg st order (.error ()) closeId).tx.status = "FILLED" ∧
    (handle_order_result cfg st order (.error ()) closeId).state.order_status
      ≠ some "CANCELLED" := by
  simp [handle_order_result, h]

/-- Witness for `cancel_raced_fill_reclassified` at a concrete unfilled
monitor state. -/
theorem cancel_raced_fill_reclassified_witness :
    (handle_order_result cfgW
        ⟨⟨some 7, false, none, 0⟩, none, none, [], false, 0⟩
        ⟨7, 2000, 1/100⟩ (.error ()) 42).state.monitor.filled = true ∧
    (handle_order_result cfgW
        ⟨⟨some 7, false, none, 0⟩, none, none, [], false, 0⟩
        ⟨7, 2000, 1/100⟩ (.error ()) 42).state.monitor.filled_qty = cfgW.quantity ∧
    (handle_order_result cfgW
        ⟨⟨some 7, false, none, 0⟩, none, none, [], false, 0⟩
        ⟨7, 2000, 1/100⟩ (.error ()) 42).state.monitor.filled_price
      = some (⟨7, 2000, 1/100⟩ : OpenOrderResp).price ∧
    (handle_order_result cfgW
        ⟨⟨some 7, false, none, 0⟩, none, none, [], false, 0⟩
        ⟨7, 2000, 1/100⟩ (.error ()) 42).state.order_status = some "FILLED" ∧
    (handle_order_result cfgW
        ⟨⟨some 7, false, none, 0⟩, none, none, [], false, 0⟩
        ⟨7, 2000, 1/100⟩ (.error ()) 42).tx.status = "FILLED" ∧
    (handle_order_result cfgW
        ⟨⟨some 7, false, none, 0⟩, none, none, [], false, 0⟩
        ⟨7, 2000, 1/100⟩ (.error ()) 42).state.order_status ≠ some "CANCELLED" :=
  cancel_raced_fill_reclassified cfgW
    ⟨⟨some 7, false, none, 0⟩, none, none, [], false, 0⟩ ⟨7, 2000, 1/100⟩ 42 rfl

/-- C9: whenever an attempt's outcome is FILLED — monitor already
filled when the wait returned, or reclassified because the cancel call
raised — both the close-order quantity and the OPEN-leg transaction
amount are the placement response's `origQty`, independently of the
monitor's cumulative `filled_qty`. -/
theorem filled_outcome_uses_orig_qty (cfg : TradingConfig) (st : BotState)
    (order : OpenOrderResp) (cancel : Except Unit CancelResp) (closeId : ℕ)
    (h : st.monitor.filled = true ∨ cancel = .error ()) :
    Option.map CloseOrderReq.qty
        (handle_order_result cfg st order cancel closeId).placed_close
      = some order.origQty ∧
    (handle_order_result cfg st order cancel closeId).tx.amount = order.origQty ∧
    (handle_order_result cfg st order cancel closeId).state.order_status
      = some "FILLED" := by
  rcases h with h | h
  · simp [handle_order_result, h, place_close_order]
  · subst h
    cases hf : st.monitor.filled
    · simp [handle_order_result, hf, place_close_order]
    · simp [handle_order_result, hf, place_close_order]

/-- Witness for `filled_outcome_uses_orig_qty`: the monitor's
cumulative filled quantity (5) differs from the response's `origQty`
(3); the close order and the logged amount still use 3. -/
theorem filled_outcome_uses_orig_qty_witness :
    Option.map CloseOrderReq.qty
        (handle_order_result cfgW ⟨⟨some 7, true, some 2000, 5⟩, none, none, [], false, 0⟩
          ⟨7, 2000, 3⟩ (.ok ⟨5⟩) 42).placed_close
      = some (⟨7, 2000, 3⟩ : OpenOrderResp).origQty ∧
    (handle_order_result cfgW ⟨⟨some 7, true, some 2000, 5⟩, none, none, [], false, 0⟩
        ⟨7, 2000, 3⟩ (.ok ⟨5⟩) 42).tx.amount = (⟨7, 2000, 3⟩ : OpenOrderResp).origQty ∧
    (handle_order_result cfgW ⟨⟨some 7, true, some 2000, 5⟩, none, none, [], false, 0⟩
        ⟨7, 2000, 3⟩ (.ok ⟨5⟩) 42).state.order_status = some "FILLED" :=
  filled_outcome_uses_orig_qty cfgW ⟨⟨some 7, true, some 2000, 5⟩, none, none, [], false, 0⟩
    ⟨7, 2000, 3⟩ (.ok ⟨5⟩) 42 (Or.inl rfl)

/-- C6: every filled attempt — whether the fill arrived through the
event-listener signal (monitor filled with `filled_price = p`) or
through cancel-failure reclassification (monitor unfilled, cancel
raised, `p` the original order's price) — places its close order at
`p + take_profit` for the response's `origQty` on the configured close
side; the close side is BUY exactly when the direction is SELL; and in
the concrete scenario (defaults: quantity 0.01, offset 1, direction
BUY) a fill at 2000 yields a SELL close order at 2001 for 0.01. -/
theorem close_order_opposite_side_offset (cfg : TradingConfig) (st : BotState)
    (order : OpenOrderResp) (cancel : Except Unit CancelResp) (closeId : ℕ)
    (p : ℚ)
    (h : (st.monitor.filled = true ∧ st.monitor.filled_price = some p) ∨
         (st.monitor.filled = false ∧ cancel = .error () ∧ p = order.price)) :
    (handle_order_result cfg st order cancel closeId).placed_close =
      some { qty := order.origQty, price := p + cfg.take_profit,
             side := cfg.close_order_side } ∧
    (cfg.close_order_side = "BUY" ↔ cfg.direction = "SELL") ∧
    (handle_order_result cfgW
        ⟨⟨some 7, true, some 2000, 1/100⟩, none, none, [], false, 0⟩
        ⟨7, 2000, 1/100⟩ (.ok ⟨1/100⟩) 42).placed_close =
      some { qty := 1/100, price := 2001, side := "SELL" } := by
  refine ⟨?_, ?_, ?_⟩
  · rcases h with ⟨hf, hp⟩ | ⟨hf, hc, hp⟩
    · simp [handle_order_result, hf, hp, place_close_order]
    · subst hc
      subst hp
      simp [handle_order_result, hf, place_close_order]
  · rcases eq_or_ne cfg.direction "SELL" with h | h <;>
      simp [TradingConfig.close_order_side, h]
  · norm_num [handle_order_result, place_close_order, cfgW,
      TradingConfig.close_order_side]

/-- Witness for `close_order_opposite_side_offset`, exercising the
cancel-failure reclassification path: the monitor is unfilled, the
cancel call raises, and the close order is placed at the original
order's price 2000 plus the offset. -/
theorem close_order_opposite_side_offset_witness :
    (handle_order_result cfgW
        ⟨⟨some 7, false, none, 0⟩, none, none, [], false, 0⟩
        ⟨7, 2000, 1/100⟩ (.error ()) 42).placed_close =
      some { qty := (⟨7, 2000, 1/100⟩ : OpenOrderResp).origQty,
             price := 2000 + cfgW.take_profit, side := cfgW.close_order_side } ∧
    (cfgW.close_order_side = "BUY" ↔ cfgW.direction = "SELL") ∧
    (handle_order_result cfgW
        ⟨⟨some 7, true, some 2000, 1/100⟩, none, none, [], false, 0⟩
        ⟨7, 2000, 1/100⟩ (.ok ⟨1/100⟩) 42).placed_close =
      some { qty := 1/100, price := 2001, side := "SELL" } :=
  close_order_opposite_side_offset cfgW
    ⟨⟨some 7, false, none, 0⟩, none, none, [], false, 0⟩
    ⟨7, 2000, 1/100⟩ (.error ()) 42 2000 (Or.inr ⟨rfl, rfl, rfl⟩)

/-- C2: an iteration of the main loop admits an open-order attempt only
when the active close-order list is strictly shorter than
`max_orders`. -/
theorem open_admission_bound (cfg : TradingConfig) (st : BotState) (now : ℚ)
    (env : AttemptEnv) (latest : List ℕ)
    (h : (runIteration cfg st now env latest).2 = true) :
    st.active_close_orders.length < cfg.max_orders := by
  by_cases hc : st.active_close_orders.length < cfg.max_orders ∧
      ((calculate_wait_time cfg st.active_close_orders.length : ℚ) ≤
          now - st.last_open_order_time ∨ st.skip_waiting_time = true)
  · exact hc.1
  · exfalso
    rw [runIteration, iterationAttemptPhase] at h
    simp only [if_neg hc] at h
    exact Bool.false_ne_true h

/-- Witness for `open_admission_bound`: an iteration whose attempt is
admitted (empty active list, skip-wait set) has fewer active close
orders than the maximum. -/
theorem open_admission_bound_witness :
    ([] : List ℕ).length < cfgW.max_orders :=
  open_admission_bound cfgW ⟨⟨none, false, none, 0⟩, none, none, [], true, 0⟩
    0 attemptEnvErr [] (by simp +decide [runIteration, iterationAttemptPhase, cfgW])

/-- C7: `_handle_order_update` on a `FILLED` status sets the fill flag,
price and quantity and signals the fill event; on `PARTIALLY_FILLED`
it updates quantity and price without signalling; any other status
leaves the whole state — monitor and fill event — unchanged. -/
theorem order_update_cases (st : WsState) (o : WsOrder) :
    (o.X = "FILLED" →
      handle_order_update st o =
        { st with
          monitor := { st.monitor with
            filled := true, filled_price := some o.ap, filled_qty := o.z },
          fill_event := true }) ∧
    (o.X = "PARTIALLY_FILLED" →
      handle_order_update st o =
        { st with
          monitor := { st.monitor with
            filled_qty := o.z, filled_price := some o.ap } }) ∧
    (o.X ≠ "FILLED" → o.X ≠ "PARTIALLY_FILLED" →
      handle_order_update st o = st) := by
  refine ⟨fun h => by simp [handle_order_update, h],
          fun h => by simp [handle_order_update, h],
          fun h1 h2 => by simp [handle_order_update, h1, h2]⟩

/-- Witness for `order_update_cases`: a concrete FILLED update on the
tracked order sets the monitor fields and the fill event. -/
theorem order_update_cases_witness :
    handle_order_update ⟨⟨some 9, false, none, 0⟩, false, 0, []⟩
        ⟨"ETHUSDC", 9, "BUY", "FILLED", 2000, 1/100, 1/100⟩ =
      ⟨⟨some 9, true, some 2000, 1/100⟩, true, 0, []⟩ :=
  (order_update_cases ⟨⟨some 9, false, none, 0⟩, false, 0, []⟩
    ⟨"ETHUSDC", 9, "BUY", "FILLED", 2000, 1/100, 1/100⟩).1 rfl

/-- `_update_skip_waiting_logic` sets the skip-wait flag to exactly
`skipCond` of the state it reads, and changes nothing else. -/
theorem update_skip_waiting_logic_eq (st : BotState) :
    update_skip_waiting_logic st = { st with skip_waiting_time := skipCond st } := by
  rcases hco : st.close_order with _ | cid
  · rw [update_skip_waiting_logic, skipCond, hco]
    by_cases hs : st.order_status = some "CANCELLED" <;> simp [hs]
  · rw [update_skip_waiting_logic, skipCond, hco]
    by_cases hm : cid ∈ st.active_close_orders
    · by_cases hs : st.order_status = some "CANCELLED" <;> simp [hm, hs]
    · simp [hm]

/-- C4, counterexample: an iteration in which the remembered close
order id 5 is present in the freshly queried active set `[5]` (and the
open leg is not CANCELLED) still sets the skip-wait flag, because
`_update_skip_waiting_logic` runs before
`self.active_close_orders = latest_active_orders` and therefore tests
membership in the stale list `[7]`. -/
theorem skip_wait_fresh_query_cex :
    (runIteration cfgW ⟨⟨none, false, none, 0⟩, some 5, none, [7], false, 0⟩
        0 attemptEnvErr [5]).1.skip_waiting_time = true ∧
    (runIteration cfgW ⟨⟨none, false, none, 0⟩, some 5, none, [7], false, 0⟩
        0 attemptEnvErr [5]).1.close_order = some 5 ∧
    (5 : ℕ) ∈ (runIteration cfgW ⟨⟨none, false, none, 0⟩, some 5, none, [7], false, 0⟩
        0 attemptEnvErr [5]).1.active_close_orders ∧
    (runIteration cfgW ⟨⟨none, false, none, 0⟩, some 5, none, [7], false, 0⟩
        0 attemptEnvErr [5]).1.order_status ≠ some "CANCELLED" := by
  have hwt : calculate_wait_time cfgW 1 = 0 := by
    norm_num [calculate_wait_time, cfgW]
  have hap : iterationAttemptPhase cfgW
      ⟨⟨none, false, none, 0⟩, some 5, none, [7], false, 0⟩ 0 attemptEnvErr =
      (⟨⟨none, false, none, 0⟩, some 5, none, [7], false, 0⟩, true) := by
    simp [iterationAttemptPhase, hwt, place_and_monitor_open_order, attemptEnvErr,
      show cfgW.max_orders = 75 from rfl]
  refine ⟨?_, ?_, ?_, ?_⟩ <;>
    simp [runIteration, hap, update_skip_waiting_logic_eq, skipCond]

/-- C4, amended: the skip-wait flag computed by an iteration equals
`skipCond` of the state as it stands right after the attempt phase —
i.e. the membership test uses the close-order list from before this
iteration's fresh query result is installed (the previous list plus any
ids appended during the attempt), not the freshly queried set, which is
assigned to `active_close_orders` only afterwards. -/
theorem skip_wait_uses_pre_refresh_list (cfg : TradingConfig) (st : BotState)
    (now : ℚ) (env : AttemptEnv) (latest : List ℕ) :
    (runIteration cfg st now env latest).1.skip_waiting_time =
      skipCond (iterationAttemptPhase cfg st now env).1 ∧
    (runIteration cfg st now env latest).1.active_close_orders = latest := by
  rw [runIteration, update_skip_waiting_logic_eq]
  exact ⟨rfl, rfl⟩

/-- C5, counterexample: a close-side FILLED event whose original
quantity field `q = 2` differs from its cumulative filled quantity
`z = 1` increases the PnL by `take_profit * q = 2`, not by
`take_profit * z = 1` as the claim's "filled quantity" reading
requires. -/
theorem close_fill_pnl_cex :
    (handle_message cfgW ⟨⟨none, false, none, 0⟩, false, 0, []⟩
        "ORDER_TRADE_UPDATE" ⟨"ETHUSDC", 9, "SELL", "FILLED", 2001, 1, 2⟩).cumulative_pnl
      ≠ (0 : ℚ) + cfgW.take_profit * (1 : ℚ) ∧
    (handle_message cfgW ⟨⟨none, false, none, 0⟩, false, 0, []⟩
        "ORDER_TRADE_UPDATE" ⟨"ETHUSDC", 9, "SELL", "FILLED", 2001, 1, 2⟩).cumulative_pnl
      = (0 : ℚ) + cfgW.take_profit * (2 : ℚ) := by
  constructor <;>
    simp [handle_message, handle_close_order_fill, handle_order_update,
      cfgW, TradingConfig.close_order_side]

/-- C5, amended: exactly the events satisfying `closeFillCond` (right
type, right symbol, not the tracked order, close side, FILLED) append a
CLOSE/FILLED transaction row and add `take_profit` times the event's
original order-quantity field `q` — equal to the filled quantity only
when the order filled in full — to the cumulative PnL; every other
event leaves the PnL unchanged. -/
theorem close_fill_pnl_amended (cfg : TradingConfig) (st : WsState)
    (e : String) (o : WsOrder) :
    (closeFillCond cfg st e o = true →
      handle_message cfg st e o =
        { st with
          txLog := st.txLog ++
            [{ transaction_id := o.i, tx_type := "CLOSE", price := o.ap,
               amount := o.q, status := "FILLED", counter_order_id := none }],
          cumulative_pnl := st.cumulative_pnl + cfg.take_profit * o.q }) ∧
    (closeFillCond cfg st e o = false →
      (handle_message cfg st e o).cumulative_pnl = st.cumulative_pnl) := by
  constructor
  · intro h
    simp only [closeFillCond, Bool.and_eq_true, decide_eq_true_eq,
      Bool.not_eq_true', decide_eq_false_iff_not] at h
    obtain ⟨⟨⟨⟨he, hs⟩, hi⟩, hS⟩, hX⟩ := h
    rw [handle_message]
    simp [he, hs, hi, hS, hX, handle_close_order_fill]
  · intro h
    rw [handle_message]
    split_ifs with h1 h2 h3 h4
    · rfl
    · rfl
    · rw [handle_order_update]
      split_ifs <;> rfl
    · exfalso
      have hc : closeFillCond cfg st e o = true := by
        simp [closeFillCond, not_ne_iff.mp h1, not_ne_iff.mp h2, h3, h4.1, h4.2]
      rw [h] at hc
      exact Bool.false_ne_true hc
    · rfl

/-- Witness for `close_fill_pnl_amended`: a concrete close-side FILLED
event appends the CLOSE row and adds `take_profit * q` to the PnL. -/
theorem close_fill_pnl_amended_witness :
    handle_message cfgW ⟨⟨none, false, none, 0⟩, false, 0, []⟩
        "ORDER_TRADE_UPDATE" ⟨"ETHUSDC", 9, "SELL", "FILLED", 2001, 1/100, 1/100⟩ =
      { (⟨⟨none, false, none, 0⟩, false, 0, []⟩ : WsState) with
        txLog := [] ++
          [{ transaction_id := 9, tx_type := "CLOSE", price := 2001,
             amount := 1/100, status := "FILLED", counter_order_id := none }],
        cumulative_pnl := (0 : ℚ) + cfgW.take_profit * (1/100) } :=
  (close_fill_pnl_amended cfgW ⟨⟨none, false, none, 0⟩, false, 0, []⟩
    "ORDER_TRADE_UPDATE" ⟨"ETHUSDC", 9, "SELL", "FILLED", 2001, 1/100, 1/100⟩).1
    (by simp [closeFillCond, cfgW, TradingConfig.close_order_side])

/-- Shifting the linear-backoff sleep trace across one failed attempt:
a sleep of `delay * (a + 1)` followed by the trace for attempts
`a + 1, …` is the trace for attempts `a, …` of one greater length. -/
theorem sleep_trace_shift (delay : ℚ) (a k : ℕ) :
    delay * ((a : ℚ) + 1) ::
        (List.range k).map (fun j : ℕ => delay * (((a + 1 : ℕ) : ℚ) + (j : ℚ) + 1)) =
      (List.range (k + 1)).map (fun j : ℕ => delay * ((a : ℚ) + (j : ℚ) + 1)) := by
  rw [List.range_succ_eq_map, List.map_cons, List.map_map]
  congr 1
  · push_cast
    ring
  · apply List.map_congr_left
    intro j _
    simp only [Function.comp_apply]
    push_cast
    ring

/-- If attempts `a, …, a + k - 1` of the retry loop fail and attempt
`a + k` (still within the budget) succeeds with order list `os`, the
loop returns the close-side order ids of `os` after sleeping
`delay * (attempt + 1)` for each failed attempt. -/
theorem gaco_loop_first_success (cs : String)
    (respond : ℕ → Except String (List RawOrder)) (retries : ℕ) (delay : ℚ)
    (os : List RawOrder) :
    ∀ k a, a + k < retries →
      (∀ j, j < k → ∃ e, respond (a + j) = .error e) →
      respond (a + k) = .ok os →
      gaco_loop cs respond retries delay a (retries - a) =
        (some (.ok ((os.filter (fun o => o.side = cs)).map RawOrder.orderId)),
         (List.range k).map (fun j : ℕ => delay * ((a : ℚ) + (j : ℚ) + 1))) := by
  intro k
  induction k with
  | zero =>
    intro a ha _ hok
    obtain ⟨f, hf⟩ : ∃ f, retries - a = f + 1 := ⟨retries - a - 1, by omega⟩
    simp only [Nat.add_zero] at hok
    rw [hf]
    simp only [gaco_loop, hok]
    simp
  | succ k ih =>
    intro a ha hfail hok
    obtain ⟨e0, he0⟩ := hfail 0 (Nat.succ_pos k)
    obtain ⟨f, hf⟩ : ∃ f, retries - a = f + 1 := ⟨retries - a - 1, by omega⟩
    simp only [Nat.add_zero] at he0
    rw [hf]
    simp only [gaco_loop, he0]
    rw [if_pos (by omega : a < retries - 1)]
    have hrec : f = retries - (a + 1) := by omega
    have ih2 := ih (a + 1) (by omega)
      (fun j hj => by
        have h2 := hfail (j + 1) (by omega)
        have hx : a + 1 + j = a + (j + 1) := by omega
        rw [hx]
        exact h2)
      (by
        have hx : a + 1 + k = a + (k + 1) := by omega
        rw [hx]
        exact hok)
    rw [hrec, ih2]
    simpa using sleep_trace_shift delay a k

/-- If every attempt of the retry loop from `a` to the last one
(`retries - 1 = a + k`) fails, the last failure `e` is re-raised after
the linearly growing sleeps for the non-final failures. -/
theorem gaco_loop_all_fail (cs : String)
    (respond : ℕ → Except String (List RawOrder)) (retries : ℕ) (delay : ℚ) :
    ∀ k a e, a + k + 1 = retries →
      (∀ j, j < k → ∃ e2, respond (a + j) = .error e2) →
      respond (a + k) = .error e →
      gaco_loop cs respond retries delay a (retries - a) =
        (some (.error e),
         (List.range k).map (fun j : ℕ => delay * ((a : ℚ) + (j : ℚ) + 1))) := by
  intro k
  induction k with
  | zero =>
    intro a e ha _ hlast
    have hf : retries - a = 0 + 1 := by omega
    simp only [Nat.add_zero] at hlast
    rw [hf]
    simp only [gaco_loop, hlast]
    rw [if_neg (by omega : ¬ a < retries - 1)]
    simp
  | succ k ih =>
    intro a e ha hfail hlast
    obtain ⟨e0, he0⟩ := hfail 0 (Nat.succ_pos k)
    obtain ⟨f, hf⟩ : ∃ f, retries - a = f + 1 := ⟨retries - a - 1, by omega⟩
    simp only [Nat.add_zero] at he0
    rw [hf]
    simp only [gaco_loop, he0]
    rw [if_pos (by omega : a < retries - 1)]
    have hrec : f = retries - (a + 1) := by omega
    have ih2 := ih (a + 1) e (by omega)
      (fun j hj => by
        have h2 := hfail (j + 1) (by omega)
        have hx : a + 1 + j = a + (j + 1) := by omega
        rw [hx]
        exact h2)
      (by
        have hx : a + 1 + k = a + (k + 1) := by omega
        rw [hx]
        exact hlast)
    rw [hrec, ih2]
    simpa using sleep_trace_shift delay a k

/-- The retry loop consults the response oracle only at attempt indices
below `retries`: two oracles agreeing there produce the same run. -/
theorem gaco_loop_congr (cs : String)
    (r1 r2 : ℕ → Except String (List RawOrder)) (retries : ℕ) (delay : ℚ) :
    ∀ fuel a, a < retries → (∀ j, j < retries → r1 j = r2 j) →
      gaco_loop cs r1 retries delay a fuel =
        gaco_loop cs r2 retries delay a fuel := by
  intro fuel
  induction fuel with
  | zero =>
    intro a _ _
    rfl
  | succ f ih =>
    intro a ha hagree
    simp only [gaco_loop]
    rw [hagree a ha]
    cases r2 a with
    | ok os => rfl
    | error e =>
      dsimp only
      by_cases hlt : a < retries - 1
      · rw [if_pos hlt, if_pos hlt, ih (a + 1) (by omega) hagree]
      · rw [if_neg hlt, if_neg hlt]

/-- C8: `get_active_close_orders` (i) makes at most `retries` attempts —
its run depends only on the first `retries` oracle responses; (ii) if
the first success is attempt `k` (zero-based, within budget), it
returns the ids of the close-side open orders of that response, having
slept `delay * (j + 1)` after each failed attempt `j < k` — linearly
growing delays; (iii) if all `retries` attempts fail, it re-raises the
final attempt's failure after the sleeps for the non-final failures. -/
theorem get_active_close_orders_spec (cs : String)
    (respond : ℕ → Except String (List RawOrder)) (retries : ℕ) (delay : ℚ) :
    (∀ respond2, (∀ j, j < retries → respond j = respond2 j) →
      get_active_close_orders cs respond retries delay =
        get_active_close_orders cs respond2 retries delay) ∧
    (∀ k os, k < retries →
      (∀ j, j < k → ∃ e, respond j = .error e) →
      respond k = .ok os →
      get_active_close_orders cs respond retries delay =
        (some (.ok ((os.filter (fun o => o.side = cs)).map RawOrder.orderId)),
         (List.range k).map (fun j : ℕ => delay * ((j : ℚ) + 1)))) ∧
    (∀ e, 1 ≤ retries →
      (∀ j, j + 1 < retries → ∃ e2, respond j = .error e2) →
      respond (retries - 1) = .error e →
      get_active_close_orders cs respond retries delay =
        (some (.error e),
         (List.range (retries - 1)).map (fun j : ℕ => delay * ((j : ℚ) + 1)))) := by
  refine ⟨?_, ?_, ?_⟩
  · intro r2 hagree
    rcases Nat.eq_zero_or_pos retries with h0 | hpos
    · subst h0
      rfl
    · exact gaco_loop_congr cs respond r2 retries delay retries 0 hpos hagree
  · intro k os hk hfail hok
    have h := gaco_loop_first_success cs respond retries delay os k 0 (by omega)
      (fun j hj => by simpa using hfail j hj)
      (by simpa using hok)
    simp only [Nat.sub_zero] at h
    rw [get_active_close_orders, h]
    simp
  · intro e h1 hfail hlast
    have h := gaco_loop_all_fail cs respond retries delay (retries - 1) 0 e
      (by omega)
      (fun j hj => by simpa using hfail j (by omega))
      (by simpa using hlast)
    simp only [Nat.sub_zero] at h
    rw [get_active_close_orders, h]
    simp

/-- A concrete response oracle: the first query raises, later queries
return one SELL-side and one BUY-side open order. -/
def respondW : ℕ → Except String (List RawOrder) :=
  fun j => if j = 0 then .error "boom" else .ok [⟨7, "SELL"⟩, ⟨8, "BUY"⟩]

/-- Witness for `get_active_close_orders_spec`: with 3 retries, a
failure on attempt 0 and a success on attempt 1, the call returns the
SELL-side id `[7]` after a single sleep of `delay * 1 = 1`. -/
theorem get_active_close_orders_spec_witness :
    get_active_close_orders "SELL" respondW 3 1 =
      (some (.ok [7]), (List.range 1).map (fun j : ℕ => (1 : ℚ) * ((j : ℚ) + 1))) := by
  have h := (get_active_close_orders_spec "SELL" respondW 3 1).2.1 1
    [⟨7, "SELL"⟩, ⟨8, "BUY"⟩] (by omega)
    (fun j hj => ⟨"boom", by
      have hj0 : j = 0 := by omega
      rw [hj0]
      rfl⟩)
    rfl
  rw [h]
  simp [respondW]
